import Mathlib

/-!
Verification development for the multi-language OpenTelemetry pattern
analyzer (files `multilang_analyzer.py` and `src/llm/otel_analyzer.py`).

The Python source is shallowly embedded:
* Python `re` regular expressions (the subset actually used by the
  repository's pattern libraries) are embedded as an explicit AST `RE`
  together with a backtracking matcher `mtch` that reproduces CPython's
  leftmost, alternation-order, greedy/lazy backtracking semantics;
  `reFinditer`/`reSearch` reproduce `re.finditer`/`re.search`.
* Python strings are `String`/`List Char`; text inputs are ASCII source
  code, so `str.lower` is embedded as ASCII lowercasing.
* Python floats that the code only ever compares and stores (the
  confidence values) are embedded as `ℚ`.
* The two external collaborators (`vectorstore.similarity_search` and
  `llm.invoke`) are passed in as function parameters; the outcome of
  decoding an LLM response is a parameter of the validation functions.
-/

/-! ## ASCII character helpers (Python `str.lower`/`str.upper` on source text) -/

def lowerChar (c : Char) : Char :=
  if 'A' ≤ c ∧ c ≤ 'Z' then Char.ofNat (c.toNat + 32) else c

def upperChar (c : Char) : Char :=
  if 'a' ≤ c ∧ c ≤ 'z' then Char.ofNat (c.toNat - 32) else c

def strLower (s : String) : String := ⟨s.data.map lowerChar⟩

def strUpper (s : String) : String := ⟨s.data.map upperChar⟩

/-- Substring containment, Python's `needle in hay`. -/
def containsSub (needle hay : String) : Bool :=
  hay.data.tails.any (fun t => needle.data.isPrefixOf t)

/-! ## A small regular-expression engine (the subset of Python `re` used here)

Character classes cover exactly what the repository's patterns use:
literal characters (case-sensitive and, for the `re.IGNORECASE` passes,
case-insensitive), `\s`, `\w`, `\d`, `.` with and without `re.DOTALL`,
and (negated) bracket classes. -/

inductive CC where
  | chr (c : Char)
  | chrCI (c : Char)
  | ws
  | word
  | digit
  | anyNoNL
  | anyAll
  | oneOf (cs : List Char)
  | notOf (cs : List Char)
deriving DecidableEq, Repr

def ccMatch : CC → Char → Bool
  | .chr c, a => a = c
  | .chrCI c, a => lowerChar a = lowerChar c
  | .ws, a => a = ' ' ∨ a = '\t' ∨ a = '\n' ∨ a = '\r' ∨ a = '\x0b' ∨ a = '\x0c'
  | .word, a => ('a' ≤ a ∧ a ≤ 'z') ∨ ('A' ≤ a ∧ a ≤ 'Z') ∨ ('0' ≤ a ∧ a ≤ '9') ∨ a = '_'
  | .digit, a => '0' ≤ a ∧ a ≤ '9'
  | .anyNoNL, a => ¬ (a = '\n')
  | .anyAll, _ => true
  | .oneOf cs, a => cs.contains a
  | .notOf cs, a => ¬ cs.contains a

inductive RE where
  | eps
  | cc (k : CC)
  | seq (a b : RE)
  | alt (a b : RE)
  | starG (a : RE)
  | starL (a : RE)
  | group (n : Nat) (a : RE)
deriving Repr

/-- Group captures: `(group index, start, stop)` with the most recent first. -/
abbrev Caps := List (Nat × Nat × Nat)

/-- Backtracking matcher in continuation-passing style, reproducing
CPython's search order: alternation tries the left branch first, greedy
stars try longer repetitions first, lazy stars shorter first, and a star
iteration that consumes nothing stops the loop.  `s` is the remaining
input, `i` the absolute position in the full text.  `fuel` bounds the
recursion depth; every caller supplies enough for its input. -/
def mtch : Nat → RE → List Char → Nat → Caps →
    (List Char → Nat → Caps → Option (Nat × Caps)) → Option (Nat × Caps)
  | 0, _, _, _, _, _ => none
  | fuel+1, r, s, i, caps, k =>
    match r with
    | .eps => k s i caps
    | .cc c =>
      match s with
      | [] => none
      | a :: rest => if ccMatch c a then k rest (i+1) caps else none
    | .seq p q => mtch fuel p s i caps (fun s' i' caps' => mtch fuel q s' i' caps' k)
    | .alt p q =>
      match mtch fuel p s i caps k with
      | some res => some res
      | none => mtch fuel q s i caps k
    | .starG p =>
      match mtch fuel p s i caps (fun s' i' caps' =>
          if i < i' then mtch fuel (.starG p) s' i' caps' k else none) with
      | some res => some res
      | none => k s i caps
    | .starL p =>
      match k s i caps with
      | some res => some res
      | none => mtch fuel p s i caps (fun s' i' caps' =>
          if i < i' then mtch fuel (.starL p) s' i' caps' k else none)
    | .group n p =>
      mtch fuel p s i caps (fun s' i' caps' => k s' i' ((n, i, i') :: caps'))

/-- Fuel that is ample for every pattern/input pair in this development. -/
def reFuel (full : List Char) : Nat := 200 * (full.length + 10)

/-- Try to match `r` starting exactly at position `pos` of `full`
(Python's internal "match here" step of `search`); returns the end
position and captures of the first match in backtracking order. -/
def tryAt (r : RE) (full : List Char) (pos : Nat) : Option (Nat × Caps) :=
  mtch (reFuel full) r (full.drop pos) pos [] (fun _ i caps => some (i, caps))

structure PyMatch where
  s : Nat
  e : Nat
  caps : Caps
deriving DecidableEq, Repr

/-- Leftmost match whose start is `≥ pos` (Python `re.search` from `pos`). -/
def searchFrom : Nat → RE → List Char → Nat → Option PyMatch
  | 0, _, _, _ => none
  | fl+1, r, full, pos =>
    if pos > full.length then none
    else
      match tryAt r full pos with
      | some (e, caps) => some ⟨pos, e, caps⟩
      | none => searchFrom fl r full (pos+1)

/-- Python `re.search`. -/
def reSearch (r : RE) (full : List Char) : Option PyMatch :=
  searchFrom (full.length + 1) r full 0

def reSearchB (r : RE) (full : List Char) : Bool := (reSearch r full).isSome

/-- Python `re.match` (anchored at the start). -/
def reMatch (r : RE) (full : List Char) : Option PyMatch :=
  (tryAt r full 0).map (fun (e, caps) => ⟨0, e, caps⟩)

def finditerAux : Nat → RE → List Char → Nat → List PyMatch
  | 0, _, _, _ => []
  | fl+1, r, full, pos =>
    match searchFrom (full.length + 1 - pos) r full pos with
    | none => []
    | some m => m :: finditerAux fl r full (if m.s < m.e then m.e else m.s + 1)

/-- Python `re.finditer`: successive non-overlapping leftmost matches. -/
def reFinditer (r : RE) (full : List Char) : List PyMatch :=
  finditerAux (full.length + 1) r full 0

/-- Slice `full[a:b]` as a string. -/
def sliceStr (full : List Char) (a b : Nat) : String := ⟨(full.drop a).take (b - a)⟩

/-- `match.group n` for `n ≥ 1`: `none` is Python's `None`. -/
def PyMatch.group (m : PyMatch) (full : List Char) (n : Nat) : Option String :=
  (m.caps.find? (fun c => c.1 = n)).map (fun c => sliceStr full c.2.1 c.2.2)

/-- `match.group 0`: the full matched substring. -/
def PyMatch.group0 (m : PyMatch) (full : List Char) : String := sliceStr full m.s m.e

/-- Number of capture groups appearing in a pattern (`len(match.groups())`
is determined by the pattern, not by the match). -/
def numGroups : RE → Nat
  | .eps | .cc _ => 0
  | .seq a b | .alt a b => max (numGroups a) (numGroups b)
  | .starG a | .starL a => numGroups a
  | .group n a => max n (numGroups a)

/-! ### Pattern-building helpers -/

def seqL (rs : List RE) : RE := rs.foldr RE.seq RE.eps

def altL : List RE → RE
  | [] => RE.eps
  | [r] => r
  | r :: rs => RE.alt r (altL rs)

/-- Case-sensitive literal string. -/
def lit (s : String) : RE := seqL (s.data.map (fun c => RE.cc (CC.chr c)))

/-- Case-insensitive literal string (a pattern compiled with `re.IGNORECASE`). -/
def litCI (s : String) : RE := seqL (s.data.map (fun c => RE.cc (CC.chrCI c)))

def wsS : RE := .starG (.cc .ws)
def wsP : RE := .seq (.cc .ws) (.starG (.cc .ws))
def wordP : RE := .seq (.cc .word) (.starG (.cc .word))
def digS : RE := .starG (.cc .digit)
def quoteC : RE := .cc (.oneOf ['"', '\''])
def notQuote : CC := .notOf ['"', '\'']
def notQuoteP : RE := .seq (.cc notQuote) (.starG (.cc notQuote))
def dotS : RE := .starG (.cc .anyNoNL)
def dotAllS : RE := .starG (.cc .anyAll)
def opt (r : RE) : RE := .alt r .eps
def plus (r : RE) : RE := .seq r (.starG r)

/-! ## Line/offset helpers (Python `str.split`, `join`, `count`, `rfind`) -/

/-- Python `code.split('\n')`. -/
def splitNL : List Char → List (List Char)
  | [] => [[]]
  | c :: rest =>
    match splitNL rest with
    | [] => [[]]
    | h :: t => if c = '\n' then [] :: h :: t else (c :: h) :: t

def splitLines (s : String) : List String := (splitNL s.data).map (fun l => ⟨l⟩)

/-- Python `'\n'.join(lines)`. -/
def joinNL : List String → String
  | [] => ""
  | [l] => l
  | l :: ls => l ++ "\n" ++ joinNL ls

/-- Number of newline characters in a character list (`code[:s].count('\n')`). -/
def countNL (l : List Char) : Nat := l.count '\n'

/-- Index of the last `'\n'` of a character list, `-1` if there is none:
`code.rfind('\n', 0, s)` is `lastNLIdx (code.take s)`. -/
def lastNLIdx : List Char → Int
  | [] => -1
  | c :: rest =>
    let r := lastNLIdx rest
    if r ≥ 0 then r + 1 else if c = '\n' then 0 else -1

/-- The reported line number of a match starting at offset `s`
(`code[:match.start()].count('\n') + 1`, both analyzers). -/
def lineOfPos (code : List Char) (s : Nat) : Nat := countNL (code.take s) + 1

/-- The reported column of a match starting at offset `s`
(`match.start() - code.rfind('\n', 0, match.start())`, both analyzers). -/
def colOfPos (code : List Char) (s : Nat) : Int := (s : Int) - lastNLIdx (code.take s)

/-- Specification-side 0-based column: the number of consecutive
non-newline characters immediately before offset `s`, i.e. the offset of
`s` from the start of its line. -/
def col0 (code : List Char) (s : Nat) : Nat :=
  ((code.take s).reverse.takeWhile (fun c => ¬ (c = '\n'))).length

/-- Python slice `xs[a:b]` on lists. -/
def pySlice (xs : List String) (a b : Nat) : List String := (xs.drop a).take (b - a)

/-! ## Language Identifier (`MultiLanguagePatternDetector._detect_language`) -/

/-- `PurePath(p).name`: the final path component (POSIX paths without
trailing separators, which is how the analyzer is invoked). -/
def pathName (p : String) : List Char :=
  (p.data.reverse.takeWhile (fun c => ¬ (c = '/'))).reverse

/-- `PurePath(p).suffix`: the part of the final component from its last
dot, empty when that dot is the first or last character of the name. -/
def pathSuffix (p : String) : String :=
  let name := pathName p
  let after := name.reverse.takeWhile (fun c => ¬ (c = '.'))
  if after.length = name.length then ""          -- no dot at all
  else
    let i := name.length - after.length - 1       -- index of the last dot
    if 0 < i ∧ after.length ≥ 1 then ⟨name.drop i⟩ else ""

/-- The fixed extension→language table (`ext_map`). -/
def extMapLookup : String → Option String
  | ".go" => some "go"
  | ".py" => some "python"
  | ".js" => some "javascript"
  | ".ts" => some "typescript"
  | ".jsx" => some "javascript"
  | ".tsx" => some "typescript"
  | ".java" => some "java"
  | ".cs" => some "csharp"
  | ".kt" => some "java"
  | ".scala" => some "java"
  | _ => none

/-- `_detect_language(file_path, code)`: extension lookup first, then the
content-signature chain, else `"unknown"`. -/
def detect_language (filePath code : String) : String :=
  let ext := strLower (pathSuffix filePath)
  match extMapLookup ext with
  | some lang => lang
  | none =>
    if containsSub "package main" code ∨ containsSub "import (" code then "go"
    else if containsSub "def " code ∧ containsSub "import " code then "python"
    else if containsSub "function " code ∨ containsSub "const " code then "javascript"
    else if containsSub "class " code ∧ containsSub "public " code then "java"
    else "unknown"

/-! ## Pattern Library (`MultiLanguagePatternDetector._get_*_patterns`)

Every multilang pattern is compiled with `re.MULTILINE | re.IGNORECASE`,
so literals use `litCI` and `.` does not match newlines.  A rule whose
match expression fails to compile is represented with `regex := none`
(`re.finditer` raising `re.error`, caught by the per-rule handler). -/

structure MLRule where
  name : String
  regex : Option RE
  violation_type : String
  description : String
  extract_name : Option Nat
deriving Repr

/-- `\s*\(\s*["']([^"']+)["']` — the recurring tail of most rules. -/
def callQuotedName : RE :=
  seqL [wsS, litCI "(", wsS, quoteC, .group 1 notQuoteP, quoteC]

def goPatterns : List MLRule :=
  [ { name := "tracer_start_span",
      regex := some (seqL [litCI "tracer.Start", wsS, litCI "(", wsS, wordP, wsS,
        litCI ",", wsS, quoteC, .group 1 notQuoteP, quoteC]),
      violation_type := "span_naming",
      description := "Go tracer.Start() span creation", extract_name := some 1 },
    { name := "tracer_start_with_options",
      regex := some (seqL [litCI "tracer.Start", wsS, litCI "(", wsS, wordP, wsS,
        litCI ",", wsS, quoteC, .group 1 notQuoteP, quoteC, dotS,
        litCI "trace.WithSpanKind"]),
      violation_type := "span_naming",
      description := "Go tracer.Start() with span options", extract_name := some 1 },
    { name := "meter_counter",
      regex := some (seqL [litCI ".NewCounter", wsS, litCI "(",
        .starG (.cc (.notOf [','])), litCI ",", wsS, quoteC, .group 1 notQuoteP, quoteC]),
      violation_type := "metric_naming",
      description := "Go meter counter creation", extract_name := some 1 },
    { name := "meter_histogram",
      regex := some (seqL [litCI ".NewHistogram", wsS, litCI "(",
        .starG (.cc (.notOf [','])), litCI ",", wsS, quoteC, .group 1 notQuoteP, quoteC]),
      violation_type := "metric_naming",
      description := "Go meter histogram creation", extract_name := some 1 },
    { name := "span_set_attributes",
      regex := some (seqL [litCI "span.SetAttributes", wsS, litCI "(",
        .starG (.cc (.notOf [')'])), litCI "attribute.", wordP, wsS, litCI "(", wsS,
        quoteC, .group 1 notQuoteP, quoteC]),
      violation_type := "attribute_naming",
      description := "Go span.SetAttributes() usage", extract_name := some 1 },
    { name := "attribute_string",
      regex := some (seqL [litCI "attribute.String", wsS, litCI "(", wsS, quoteC,
        .group 1 notQuoteP, quoteC, .starG (.cc (.notOf [')'])), litCI ")"]),
      violation_type := "attribute_naming",
      description := "Go attribute.String() usage", extract_name := some 1 },
    { name := "attribute_int",
      regex := some (seqL [litCI "attribute.Int", digS, wsS, litCI "(", wsS, quoteC,
        .group 1 notQuoteP, quoteC]),
      violation_type := "attribute_naming",
      description := "Go attribute.Int() usage", extract_name := some 1 },
    { name := "attribute_float",
      regex := some (seqL [litCI "attribute.Float", digS, wsS, litCI "(", wsS, quoteC,
        .group 1 notQuoteP, quoteC]),
      violation_type := "attribute_naming",
      description := "Go attribute.Float() usage", extract_name := some 1 },
    { name := "attribute_bool",
      regex := some (seqL [litCI "attribute.Bool", wsS, litCI "(", wsS, quoteC,
        .group 1 notQuoteP, quoteC]),
      violation_type := "attribute_naming",
      description := "Go attribute.Bool() usage", extract_name := some 1 },
    { name := "span_add_event",
      regex := some (seqL [litCI "span.AddEvent", wsS, litCI "(", wsS, quoteC,
        .group 1 notQuoteP, quoteC]),
      violation_type := "event_naming",
      description := "Go span.AddEvent() usage", extract_name := some 1 },
    { name := "producer_span",
      regex := some (seqL [litCI "tracer.Start", wsS, litCI "(",
        plus (.cc (.notOf [','])), litCI ",", wsS, litCI "fmt.Sprintf", wsS, litCI "(",
        wsS, quoteC,
        .group 1 (seqL [.starG (.cc notQuote), litCI "%s", .starG (.cc notQuote)]),
        quoteC]),
      violation_type := "span_naming",
      description := "Go messaging producer span with format string", extract_name := some 1 } ]

def pythonPatterns : List MLRule :=
  [ { name := "tracer_start_span",
      regex := some (seqL [litCI "tracer.start_span", callQuotedName]),
      violation_type := "span_naming",
      description := "Python tracer.start_span() usage", extract_name := some 1 },
    { name := "with_tracer_span",
      regex := some (seqL [litCI "with", wsP, litCI "tracer.start_span", callQuotedName]),
      violation_type := "span_naming",
      description := "Python with tracer.start_span() context manager", extract_name := some 1 },
    { name := "start_as_current_span",
      regex := some (seqL [litCI ".start_as_current_span", callQuotedName]),
      violation_type := "span_naming",
      description := "Python start_as_current_span() usage", extract_name := some 1 },
    { name := "create_counter",
      regex := some (seqL [litCI ".create_counter", callQuotedName]),
      violation_type := "metric_naming",
      description := "Python create_counter() usage", extract_name := some 1 },
    { name := "create_histogram",
      regex := some (seqL [litCI ".create_histogram", callQuotedName]),
      violation_type := "metric_naming",
      description := "Python create_histogram() usage", extract_name := some 1 } ]

def javascriptPatterns : List MLRule :=
  [ { name := "tracer_start_span",
      regex := some (seqL [litCI "tracer.startSpan", callQuotedName]),
      violation_type := "span_naming",
      description := "JavaScript tracer.startSpan() usage", extract_name := some 1 },
    { name := "start_active_span",
      regex := some (seqL [litCI ".startActiveSpan", callQuotedName]),
      violation_type := "span_naming",
      description := "JavaScript startActiveSpan() usage", extract_name := some 1 },
    { name := "create_counter",
      regex := some (seqL [litCI ".createCounter", wsS, litCI "(", wsS, litCI "\x7b",
        wsS, litCI "name:", wsS, quoteC, .group 1 notQuoteP, quoteC]),
      violation_type := "metric_naming",
      description := "JavaScript createCounter() usage", extract_name := some 1 } ]

/-- `_get_typescript_patterns` just returns the JavaScript set. -/
def typescriptPatterns : List MLRule := javascriptPatterns

def javaPatterns : List MLRule :=
  [ { name := "tracer_span_builder",
      regex := some (seqL [litCI "tracer.spanBuilder", callQuotedName]),
      violation_type := "span_naming",
      description := "Java tracer.spanBuilder() usage", extract_name := some 1 },
    { name := "span_builder_start",
      regex := some (seqL [litCI ".spanBuilder", callQuotedName]),
      violation_type := "span_naming",
      description := "Java spanBuilder() usage", extract_name := some 1 },
    { name := "counter_builder",
      regex := some (seqL [litCI ".counterBuilder", callQuotedName]),
      violation_type := "metric_naming",
      description := "Java counterBuilder() usage", extract_name := some 1 } ]

def csharpPatterns : List MLRule :=
  [ { name := "activity_source_start",
      regex := some (seqL [litCI "activitySource.StartActivity", callQuotedName]),
      violation_type := "span_naming",
      description := "C# ActivitySource.StartActivity() usage", extract_name := some 1 },
    { name := "create_counter",
      regex := some (seqL [litCI ".CreateCounter<", plus (.cc (.notOf ['>'])), litCI ">",
        callQuotedName]),
      violation_type := "metric_naming",
      description := "C# CreateCounter<T>() usage", extract_name := some 1 } ]

/-- `self.language_patterns`: the per-language dispatch table; `none` models
`language not in self.language_patterns`. -/
def language_patterns : String → Option (List MLRule)
  | "go" => some goPatterns
  | "python" => some pythonPatterns
  | "javascript" => some javascriptPatterns
  | "typescript" => some typescriptPatterns
  | "java" => some javaPatterns
  | "csharp" => some csharpPatterns
  | _ => none

/-! ## Context Classifier (`MultiLanguagePatternDetector._extract_span_context`)

The indicator patterns are searched with no flags against the lowercased
window text, so literals are case-sensitive. -/

def http_indicators : List RE :=
  [ lit "http.handler",
    lit "gin.context",
    lit "router.",
    seqL [lit "handler", wsS, lit "func"],
    lit "http.request",
    lit "http.response",
    seqL [lit ".method", wsS, lit "=="],
    lit "req.",
    lit "resp.",
    altL [seqL [lit "get", wsS, lit "/"], seqL [lit "post", wsS, lit "/"],
          seqL [lit "put", wsS, lit "/"], seqL [lit "delete", wsS, lit "/"]],
    lit "endpoint",
    lit "api" ]

def db_indicators : List RE :=
  [ altL [lit "sql.", lit "db.", lit "database"],
    altL [lit "query", lit "select", lit "insert", lit "update", lit "delete"],
    altL [lit "prepare", lit "execute", lit "scan"],
    altL [lit "rows.", lit "tx.", lit "conn."],
    lit "gorm.",
    altL [lit "mongo", lit "redis", lit "postgres", lit "mysql"] ]

def messaging_indicators : List RE :=
  [ altL [lit "kafka", lit "rabbitmq", lit "pubsub", lit "message", lit "producer",
          lit "consumer"],
    altL [lit "publish", lit "subscribe", lit "send", lit "receive"],
    altL [lit "topic", lit "queue", lit "exchange"] ]

/-- `for pattern in indicators: if re.search(pattern, text): ...; break` —
whether some indicator of the group matches. -/
def anyIndicator (inds : List RE) (text : List Char) : Bool :=
  inds.any (fun r => reSearchB r text)

def httpHint : String := "HTTP span should follow 'METHOD /path' format"
def dbHint : String := "Database span should follow 'OPERATION table' format"
def msgHint : String := "Messaging span should follow 'send/receive destination' format"

structure SpanCtx where
  type : String
  hints : List String
  surrounding_code : String
  is_http_handler : Bool
  is_database_op : Bool
  is_messaging : Bool
deriving DecidableEq, Repr

/-- The lowercased context window text: `"\n".join(lines[max(0, n-5):min(len, n+3)]).lower()`. -/
def contextWindow (lines : List String) (line_num : Nat) : String :=
  strLower (joinNL (pySlice lines (line_num - 5) (min lines.length (line_num + 3))))

/-- `_extract_span_context(lines, line_num, language)`.  The three
indicator groups are each evaluated; a matching group overwrites
`context["type"]`, sets its boolean flag and appends its hint.
(The `language` argument is unused in the source as well.) -/
def extract_span_context (lines : List String) (line_num : Nat) (language : String) : SpanCtx :=
  if line_num ≤ 0 ∨ line_num > lines.length then
    { type := "unknown", hints := [], surrounding_code := "",
      is_http_handler := false, is_database_op := false, is_messaging := false }
  else
    let surrounding := joinNL (pySlice lines (line_num - 5) (min lines.length (line_num + 3)))
    let ctext := (strLower surrounding).data
    let c0 : SpanCtx :=
      { type := "unknown", hints := [], surrounding_code := surrounding,
        is_http_handler := false, is_database_op := false, is_messaging := false }
    let c1 := if anyIndicator http_indicators ctext then
        { c0 with type := "http", is_http_handler := true, hints := c0.hints ++ [httpHint] }
      else c0
    let c2 := if anyIndicator db_indicators ctext then
        { c1 with type := "database", is_database_op := true, hints := c1.hints ++ [dbHint] }
      else c1
    let c3 := if anyIndicator messaging_indicators ctext then
        { c2 with type := "messaging", is_messaging := true, hints := c2.hints ++ [msgHint] }
      else c2
    let _ := language
    c3

/-! ## Function-Scope Resolver (`MultiLanguagePatternDetector._get_function_name`) -/

/-- Language-specific function-header expressions (`function_patterns`),
with `(\w+)\s*\(` as the `.get` default. -/
def function_pattern : String → RE
  | "go" => seqL [lit "func", wsP, .group 1 wordP]
  | "python" => seqL [lit "def", wsP, .group 1 wordP]
  | "javascript" => altL [seqL [lit "function", wsP, .group 1 wordP],
      seqL [lit "const", wsP, .group 2 wordP, wsS, lit "="],
      seqL [.group 3 wordP, wsS, lit ":", wsS, lit "function"]]
  | "typescript" => altL [seqL [lit "function", wsP, .group 1 wordP],
      seqL [lit "const", wsP, .group 2 wordP, wsS, lit "="],
      seqL [.group 3 wordP, wsS, lit ":", wsS, lit "function"]]
  | "java" => seqL [opt (altL [lit "public", lit "private", lit "protected"]), wsS,
      .starG (.cc .word), wsS, .group 1 wordP, wsS, lit "("]
  | "csharp" => seqL [opt (altL [lit "public", lit "private", lit "protected"]), wsS,
      .starG (.cc .word), wsS, .group 1 wordP, wsS, lit "("]
  | _ => seqL [.group 1 wordP, wsS, lit "("]

/-- `for group in match.groups(): if group: return group` — the first
non-`None`, non-empty captured group in group order. -/
def firstTruthyGroup (r : RE) (m : PyMatch) (full : List Char) : Option String :=
  ((List.range (numGroups r)).map (fun g => m.group full (g+1))).findSome?
    (fun v => match v with
      | some s => if s = "" then none else some s
      | none => none)

/-- Python `range(start, stop, -1)`: `[start, start-1, ..., stop+1]`. -/
def rangeDown (start stop : Nat) : List Nat :=
  (List.range' (stop + 1) (start - stop)).reverse

/-- `_get_function_name(lines, current_line, language)`: walk the indices
`range(current_line, max(0, current_line - 20), -1)`, searching each line
with the language's header expression; the sentinel is `"global"`. -/
def get_function_name (lines : List String) (current_line : Nat) (language : String) : String :=
  let pat := function_pattern language
  let step : Nat → Option String := fun i =>
    if h : i < lines.length then
      match reSearch pat (lines.get ⟨i, h⟩).data with
      | some m => firstTruthyGroup pat m (lines.get ⟨i, h⟩).data
      | none => none
    else none
  ((rangeDown current_line (current_line - 20)).findSome? step).getD "global"

/-! ## Matcher and Candidate Assembler (`MultiLanguagePatternDetector.find_patterns`) -/

/-- One detected-pattern dict of the multilang analyzer.  `matchStart`
records `match.start()`; it is not a key of the Python dict but is the
third component of the dedup identifier
`f"{file_path}:{line_num}:{match.start()}"`. -/
structure MLCandidate where
  pattern_name : String
  line_number : Nat
  column : Int
  matchStart : Nat
  matched_text : String
  extracted_name : Option String
  violation_type : String
  severity : String
  description : String
  context_lines : List String
  function_name : String
  detection_method : String
  language : String
  confidence : ℚ
  span_context : SpanCtx
deriving DecidableEq, Repr

def mkMLCandidate (code : List Char) (lines : List String) (language : String)
    (rule : MLRule) (r : RE) (m : PyMatch) : MLCandidate :=
  let line_num := lineOfPos code m.s
  { pattern_name := rule.name,
    line_number := line_num,
    column := colOfPos code m.s,
    matchStart := m.s,
    matched_text := m.group0 code,
    extracted_name :=
      match rule.extract_name with
      | some g => if numGroups r ≥ g then m.group code g else some ""
      | none => some "",
    violation_type := rule.violation_type,
    severity := "medium",
    description := rule.description,
    context_lines := pySlice lines (line_num - 3) (min lines.length (line_num + 2)),
    function_name := get_function_name lines (line_num - 1) language,
    detection_method := "multi_language_pattern",
    language := language,
    confidence := 0.85,
    span_context := extract_span_context lines line_num language }

/-- Process the matches of one rule, threading the per-file dedup set
`processed_patterns`.  Since `file_path` is fixed for the whole scan, the
string key `f"{file_path}:{line_num}:{match.start()}"` is equivalent to
the pair `(line_num, match.start())`. -/
def emitMatches (code : List Char) (lines : List String) (language : String)
    (rule : MLRule) (r : RE) :
    List PyMatch → List (Nat × Nat) → List MLCandidate × List (Nat × Nat)
  | [], seen => ([], seen)
  | m :: ms, seen =>
    let key : Nat × Nat := (lineOfPos code m.s, m.s)
    if key ∈ seen then emitMatches code lines language rule r ms seen
    else
      let c := mkMLCandidate code lines language rule r m
      let (rest, seen') := emitMatches code lines language rule r ms (key :: seen)
      (c :: rest, seen')

/-- The per-rule loop of `find_patterns`.  A rule with `regex := none`
is one whose expression raises `re.error`; the handler skips it. -/
def runRules (code : List Char) (lines : List String) (language : String) :
    List MLRule → List (Nat × Nat) → List MLCandidate × List (Nat × Nat)
  | [], seen => ([], seen)
  | rule :: rs, seen =>
    match rule.regex with
    | none => runRules code lines language rs seen
    | some r =>
      let (cs, seen') := emitMatches code lines language rule r (reFinditer r code) seen
      let (rest, seen'') := runRules code lines language rs seen'
      (cs ++ rest, seen'')

/-- `MultiLanguagePatternDetector.find_patterns(code, file_path)`. -/
def find_patterns (code filePath : String) : List MLCandidate :=
  let language := detect_language filePath code
  if language = "unknown" then []
  else
    match language_patterns language with
    | none => []
    | some rules => (runRules code.data (splitLines code) language rules []).1

/-! ## Smart hybrid detector (`SmartPatternDetector`, `src/llm/otel_analyzer.py`)

These patterns are compiled with `re.MULTILINE | re.DOTALL` and no
`re.IGNORECASE`, so `.` matches newlines and literals are case-sensitive. -/

structure SmartRule where
  name : String
  regex : Option RE
  violation_type : String
  severity : Option String
  description : String
  kb_rule : Option String
deriving Repr

def fallback_patterns : List SmartRule :=
  [ { name := "span_creation",
      regex := some (seqL [.group 1 (altL [lit "tracer.start_span",
          seqL [lit "with", wsP, dotAllS, lit ".start_span"]]),
        wsS, lit "(", wsS, quoteC, .group 2 notQuoteP, quoteC]),
      violation_type := "span_creation", severity := none,
      description := "Manual span creation detected", kb_rule := none },
    { name := "nested_spans",
      regex := some (seqL [lit "with", wsP, dotAllS, lit "start_span", dotAllS,
        lit ":", wsS, lit "\n", .starL (seqL [dotAllS, lit "\n"]), wsP,
        lit "with", wsP, dotAllS, lit "start_span"]),
      violation_type := "span_boundary", severity := none,
      description := "Nested span creation detected", kb_rule := none },
    { name := "span_in_function",
      regex := some (seqL [lit "def", wsP, .group 1 wordP, .starL (.cc .anyAll),
        lit ":", wsS, .starL (seqL [.starG (.cc (.notOf ['\n'])), lit "\n"]), wsS,
        lit "with", dotAllS, lit "start_span"]),
      violation_type := "span_boundary", severity := none,
      description := "Span creation in function definition", kb_rule := none },
    { name := "error_record_and_raise",
      regex := some (seqL [.group 1 (altL [lit "span.record_exception",
          lit "span.set_status"]), dotAllS, lit "\n", dotAllS, lit "raise"]),
      violation_type := "error_handling", severity := none,
      description := "Recording error and raising exception", kb_rule := none } ]

/-- `SmartPatternDetector._get_function_name`: look-back capped at 30,
anchored `re.match(r'\s*def\s+(\w+)', ...)`, sentinel `"unknown"`. -/
def smartFuncPattern : RE := seqL [wsS, lit "def", wsP, .group 1 wordP]

def smart_get_function_name (lines : List String) (current_line : Nat) : String :=
  let step : Nat → Option String := fun i =>
    if h : i < lines.length then
      match reMatch smartFuncPattern (lines.get ⟨i, h⟩).data with
      | some m => m.group (lines.get ⟨i, h⟩).data 1
      | none => none
    else none
  ((rangeDown current_line (current_line - 30)).findSome? step).getD "unknown"

/-- One detected-pattern dict of the smart analyzer (`matchStart` records
`match.start()` as for `MLCandidate`). -/
structure SmartCandidate where
  pattern_name : String
  line_number : Nat
  column : Int
  matchStart : Nat
  matched_text : String
  violation_type : String
  severity : String
  description : String
  kb_rule : String
  context_lines : List String
  function_name : String
  detection_method : String
  confidence : ℚ
deriving DecidableEq, Repr

def mkSmartCandidate (code : List Char) (lines : List String)
    (rule : SmartRule) (detection_method : String) (m : PyMatch) : SmartCandidate :=
  let line_num := lineOfPos code m.s
  { pattern_name := rule.name,
    line_number := line_num,
    column := colOfPos code m.s,
    matchStart := m.s,
    matched_text := m.group0 code,
    violation_type := rule.violation_type,
    severity := rule.severity.getD "medium",
    description := rule.description,
    kb_rule := rule.kb_rule.getD "Pattern-based detection",
    context_lines := pySlice lines (line_num - 4) (min lines.length (line_num + 3)),
    function_name := smart_get_function_name lines (line_num - 1),
    detection_method := detection_method,
    confidence := if detection_method = "learned_from_kb" then 0.9 else 0.8 }

/-- `SmartPatternDetector._detect_with_patterns`: no dedup set here. -/
def detect_with_patterns (code : List Char) (lines : List String) :
    List SmartRule → String → List SmartCandidate
  | [], _ => []
  | rule :: rs, detection_method =>
    (match rule.regex with
     | none => []     -- `except re.error: continue`
     | some r => (reFinditer r code).map (mkSmartCandidate code lines rule detection_method))
    ++ detect_with_patterns code lines rs detection_method

/-- `SmartPatternDetector._merge_patterns`: keep a fallback candidate only
when no learned candidate covers its line. -/
def merge_patterns (learned fallback : List SmartCandidate) : List SmartCandidate :=
  let learned_lines := learned.map (fun p => p.line_number)
  fallback.filter (fun p => ¬ learned_lines.contains p.line_number)

/-- `SmartPatternDetector.find_patterns`: learned pass, fallback pass,
then the line-based merge.  The learned pattern set is synthesized from
the knowledge base at start-up, so it is a parameter here. -/
def smart_find_patterns (learnedPats : List SmartRule) (code : String) : List SmartCandidate :=
  let lines := splitLines code
  let detected := detect_with_patterns code.data lines learnedPats "learned_from_kb"
  let fallback_detected := detect_with_patterns code.data lines fallback_patterns "fallback_pattern"
  detected ++ merge_patterns detected fallback_detected

/-! ## Validator responses (the external Verdict LLM boundary)

A decoded LLM reply is a JSON value; numbers are embedded as `ℚ`.
`LLMOutcome` is the outcome of `llm.invoke` plus the response-text
processing that precedes `json.loads` in `_validate_naming_convention`. -/

inductive Json where
  | null
  | bool (b : Bool)
  | num (q : ℚ)
  | str (s : String)
  | arr (xs : List Json)
  | obj (kvs : List (String × Json))

/-- `result.get(key, default)` on a decoded JSON object. -/
def getJ (kvs : List (String × Json)) (key : String) (default : Json) : Json :=
  ((kvs.find? (fun kv => kv.1 = key)).map (fun kv => kv.2)).getD default

/-- Python truthiness of a decoded JSON value. -/
def truthy : Json → Bool
  | .null => false
  | .bool b => b
  | .num q => ¬ (q = 0)
  | .str s => ¬ (s = "")
  | .arr xs => ¬ xs.isEmpty
  | .obj kvs => ¬ kvs.isEmpty

/-- Numeric view used by Python's `>=`/`>` against a float: numbers
compare as themselves, booleans as 0/1, anything else raises
`TypeError` (`none`). -/
def Json.asNum : Json → Option ℚ
  | .num q => some q
  | .bool b => some (if b then 1 else 0)
  | _ => none

/-- What happened up to and including `json.loads` for one validator call
of the multilang analyzer: the call itself raised; the `'{.*}'` search
found no JSON object in the reply; `json.loads` raised; or a value was
decoded. -/
inductive LLMOutcome where
  | raised
  | noJsonObject
  | badJson
  | parsed (j : Json)

structure CodeLocation where
  line_number : Nat
  column : Int
  function_name : String
  code_snippet : String
  context_lines : List String
deriving DecidableEq, Repr

/-- `TelemetryViolation`.  The free-text fields filled from
`result.get(...)` keep their decoded JSON values; `confidence` keeps the
numeric view of the decoded value (the only use the program makes of it
is comparison and display). -/
structure TelemetryViolation where
  violation_id : String
  severity : String
  file_path : String
  location : CodeLocation
  violation_type : String
  rule_violated : Json
  description : Json
  fix_suggestion : Json
  kb_reference : Json
  confidence : ℚ
  detection_method : String
  language : String

/-- `MultiLanguageOTelAnalyzer._validate_naming_convention`.  Everything
from `llm.invoke` to the `return` sits in a `try/except Exception`, so
every failure — including a `TypeError` from comparing a non-numeric
confidence, and an `AttributeError` from `.get` on a non-object — ends
as `return None`. -/
def validate_naming_convention (p : MLCandidate) (o : LLMOutcome) :
    Option TelemetryViolation :=
  match o with
  | .raised => none
  | .noJsonObject => none
  | .badJson => none
  | .parsed j =>
    match j with
    | .obj kvs =>
      if truthy (getJ kvs "has_violation" (.bool false)) then
        match (getJ kvs "confidence" (.num 0)).asNum with
        | none => none
        | some q =>
          if q ≥ 0.8 then
            some
              { violation_id := strUpper p.violation_type ++ "_" ++ toString p.line_number,
                severity := if q > 0.9 then "high" else "medium",
                file_path := "current_file",
                location :=
                  { line_number := p.line_number, column := p.column,
                    function_name := p.function_name,
                    code_snippet := p.matched_text,
                    context_lines := p.context_lines },
                violation_type := p.violation_type,
                rule_violated := getJ kvs "rule_violated" (.str "Naming convention violation"),
                description := getJ kvs "description"
                  (.str ("Naming issue in " ++ (p.extracted_name.getD ""))),
                fix_suggestion := getJ kvs "fix_suggestion"
                  (.str "Follow OpenTelemetry naming conventions"),
                kb_reference := getJ kvs "kb_reference" (.str "Knowledge base rules"),
                confidence := q,
                detection_method := "rag_validated_enhanced",
                language := p.language }
          else none
      else none
    | _ => none

/-- The Python exceptions relevant to the smart validator. -/
inductive PyErr where
  | attributeError
deriving DecidableEq, Repr

structure SpanViolation where
  violation_id : String
  severity : String
  file_path : String
  location : CodeLocation
  violation_type : String
  rule_violated : Json
  description : Json
  fix_suggestion : Json
  kb_reference : Json
  confidence : Json
  detection_method : String

/-- `SmartHybridSpanAnalyzer._validate_pattern_with_rag`.  `parsed` is
the outcome of `json.loads(response.content.strip())`: `Except.error`
for a `json.JSONDecodeError`.  Only `json.JSONDecodeError` and
`KeyError` are caught, so `.get` on a decoded non-object raises an
uncaught `AttributeError`, which propagates to `analyze_spans`. -/
def validate_pattern_with_rag (p : SmartCandidate) (parsed : Except Unit Json) :
    Except PyErr (Option SpanViolation) :=
  match parsed with
  | .error _ => .ok none
  | .ok j =>
    match j with
    | .obj kvs =>
      if truthy (getJ kvs "has_violation" (.bool false)) then
        .ok (some
          { violation_id := "SPAN_" ++ strUpper p.pattern_name ++ "_" ++ toString p.line_number,
            severity := p.severity,
            file_path := "current_file",
            location :=
              { line_number := p.line_number, column := p.column,
                function_name := p.function_name,
                code_snippet := p.matched_text,
                context_lines := p.context_lines },
            violation_type := p.violation_type,
            rule_violated := getJ kvs "rule_violated" (.str p.kb_rule),
            description := getJ kvs "description" (.str p.description),
            fix_suggestion := getJ kvs "fix_suggestion"
              (.str "Review code against OpenTelemetry best practices"),
            kb_reference := getJ kvs "kb_reference" (.str "Knowledge base"),
            confidence := getJ kvs "confidence" (.num p.confidence),
            detection_method := p.detection_method })
      else .ok none
    | _ => .error .attributeError

/-! ## `MultiLanguageOTelAnalyzer.analyze_telemetry_patterns`

The retrieval store and the verdict LLM are external collaborators:
`retrieve` models `vectorstore.similarity_search(query, k=3)` and
`oracle` models the whole `llm.invoke` call (plus the response-text
decoding) for one candidate and its retrieved snippets. -/

/-- A retrieved knowledge snippet (`Document`): page content and
`metadata.get("source", "unknown")`. -/
structure KBDoc where
  page_content : String
  source : Option String
deriving DecidableEq, Repr

def bump (counts : List (String × Nat)) (key : String) : List (String × Nat) :=
  match counts.find? (fun kv => kv.1 = key) with
  | some kv => counts.map (fun kv' => if kv'.1 = key then (kv'.1, kv.2 + 1) else kv')
  | none => counts ++ [(key, 1)]

/-- `MultiLanguageOTelAnalyzer._create_summary`. -/
structure Summary where
  total_violations : Nat
  by_severity : List (String × Nat)
  by_type : List (String × Nat)
  by_language : List (String × Nat)

def create_summary (violations : List TelemetryViolation) : Summary :=
  { total_violations := violations.length,
    by_severity := violations.foldl (fun acc v => bump acc v.severity) [],
    by_type := violations.foldl (fun acc v => bump acc v.violation_type) [],
    by_language := violations.foldl (fun acc v => bump acc v.language) [] }

structure AnalysisResult where
  file_path : String
  language : String
  total_patterns : Nat
  violations : List TelemetryViolation
  summary : Summary
  kb_sections_used : List String

/-- The KB retrieval query built for one candidate. -/
def kbQuery (p : MLCandidate) : String :=
  p.violation_type ++ " naming conventions OpenTelemetry " ++ p.language

/-- The per-candidate validation loop of `analyze_telemetry_patterns`:
returns the violation list and the retrieved documents, in program
order. -/
def validateLoop (retrieve : String → List KBDoc)
    (oracle : MLCandidate → List KBDoc → LLMOutcome) :
    List MLCandidate → List TelemetryViolation × List KBDoc
  | [] => ([], [])
  | p :: ps =>
    let docs := retrieve (kbQuery p)
    let v? := validate_naming_convention p (oracle p docs)
    let rest := validateLoop retrieve oracle ps
    (match v? with
     | some v => if v.confidence > 0.7 then v :: rest.1 else rest.1
     | none => rest.1,
     docs ++ rest.2)

/-- `list(set(doc.metadata.get("source", "unknown") for doc in used))`;
CPython's set-iteration order is unspecified, so the embedding keeps the
first-occurrence order. -/
def kbSections (docs : List KBDoc) : List String :=
  (docs.map (fun d => d.source.getD "unknown")).eraseDups

/-- `analyze_telemetry_patterns(code, file_path, query)` (the `query`
argument is unused by the source as well). -/
def analyze_telemetry_patterns (retrieve : String → List KBDoc)
    (oracle : MLCandidate → List KBDoc → LLMOutcome)
    (code filePath : String) (query : Option String) : AnalysisResult :=
  let _ := query
  match find_patterns code filePath with
  | [] =>
    { file_path := filePath,
      language := detect_language filePath code,
      total_patterns := 0,
      violations := [],
      summary := { total_violations := 0, by_severity := [], by_type := [],
                   by_language := [] },
      kb_sections_used := [] }
  | d :: ds =>
    let detected := d :: ds
    let vk := validateLoop retrieve oracle detected
    { file_path := filePath,
      language := d.language,
      total_patterns := detected.length,
      violations := vk.1,
      summary := create_summary vk.1,
      kb_sections_used := kbSections vk.2 }

/-! # Claims -/

/-! ## C1 — Context Classifier group priority -/

/-- The lowercased window characters the classifier scans for the match
at (1-based) line `n`. -/
def windowChars (lines : List String) (n : Nat) : List Char :=
  (contextWindow lines n).data

/-- C1 counterexample: the window `"api database"` contains both an HTTP
indicator (`api`) and a database indicator (`database`), yet the
classifier tags it `"database"`, not `"http"`: each indicator group
overwrites `context["type"]`, so the LAST matching group wins. -/
theorem c1_counterexample :
    anyIndicator http_indicators (windowChars ["api database"] 1) = true ∧
    anyIndicator db_indicators (windowChars ["api database"] 1) = true ∧
    (extract_span_context ["api database"] 1 "go").type = "database" ∧
    ¬ (extract_span_context ["api database"] 1 "go").type = "http" := by
  refine ⟨by decide, by decide, by decide, by decide⟩

/-- C1 (corrected): the classifier evaluates the groups in the order
HTTP, database, messaging, and a later matching group overwrites the tag
(last-match-wins).  A window with both an HTTP and a database indicator
and no messaging indicator is tagged `"database"` (with both flags set
and both hints appended); a window matching no group yields `"unknown"`
with an empty hint list. -/
theorem c1_classifier_last_match_wins (lines : List String) (n : Nat) (lang : String)
    (hn : 1 ≤ n) (hlen : n ≤ lines.length) :
    (anyIndicator http_indicators (windowChars lines n) = true →
      anyIndicator db_indicators (windowChars lines n) = true →
      anyIndicator messaging_indicators (windowChars lines n) = false →
      (extract_span_context lines n lang).type = "database" ∧
      (extract_span_context lines n lang).is_http_handler = true ∧
      (extract_span_context lines n lang).is_database_op = true ∧
      (extract_span_context lines n lang).hints = [httpHint, dbHint]) ∧
    (anyIndicator http_indicators (windowChars lines n) = false →
      anyIndicator db_indicators (windowChars lines n) = false →
      anyIndicator messaging_indicators (windowChars lines n) = false →
      (extract_span_context lines n lang).type = "unknown" ∧
      (extract_span_context lines n lang).hints = []) := by
  have hrange : ¬ (n ≤ 0 ∨ n > lines.length) := by omega
  constructor
  · intro h1 h2 h3
    simp only [extract_span_context, if_neg hrange, windowChars, contextWindow,
      strLower] at h1 h2 h3 ⊢
    simp [h1, h2, h3]
  · intro h1 h2 h3
    simp only [extract_span_context, if_neg hrange, windowChars, contextWindow,
      strLower] at h1 h2 h3 ⊢
    simp [h1, h2, h3]

/-- C1 witness: both parts of the corrected classifier theorem applied at
concrete windows. -/
theorem c1_classifier_last_match_wins_witness :
    ((extract_span_context ["api database"] 1 "go").type = "database" ∧
      (extract_span_context ["api database"] 1 "go").is_http_handler = true ∧
      (extract_span_context ["api database"] 1 "go").is_database_op = true ∧
      (extract_span_context ["api database"] 1 "go").hints = [httpHint, dbHint]) ∧
    ((extract_span_context ["zzz"] 1 "go").type = "unknown" ∧
      (extract_span_context ["zzz"] 1 "go").hints = []) :=
  ⟨(c1_classifier_last_match_wins ["api database"] 1 "go" (by decide) (by decide)).1
      (by decide) (by decide) (by decide),
   (c1_classifier_last_match_wins ["zzz"] 1 "go" (by decide) (by decide)).2
      (by decide) (by decide) (by decide)⟩

/-! ## C2 — learned/fallback merge -/

/-- Every candidate produced by `_detect_with_patterns` carries the
`detection_method` tag of its pass. -/
theorem detect_with_patterns_method (code : List Char) (lines : List String) :
    ∀ (pats : List SmartRule) (meth : String),
      ∀ c ∈ detect_with_patterns code lines pats meth, c.detection_method = meth := by
  intro pats
  induction pats with
  | nil => intro meth c hc; simp [detect_with_patterns] at hc
  | cons rule rs ih =>
    intro meth c hc
    simp only [detect_with_patterns, List.mem_append] at hc
    rcases hc with hc | hc
    · match hr : rule.regex with
      | none => rw [hr] at hc; simp at hc
      | some r =>
        rw [hr] at hc
        simp only [List.mem_map] at hc
        obtain ⟨mm, _, rfl⟩ := hc
        rfl
    · exact ih meth c hc

/-- C2: `find_patterns` of the smart analyzer returns every learned
candidate, and returns a fallback candidate exactly when no learned
candidate covers the same line number. -/
theorem c2_merge_learned_preferred (learnedPats : List SmartRule) (code : String) :
    (∀ c ∈ detect_with_patterns code.data (splitLines code) learnedPats "learned_from_kb",
        c ∈ smart_find_patterns learnedPats code) ∧
    (∀ f ∈ detect_with_patterns code.data (splitLines code) fallback_patterns
          "fallback_pattern",
        (f ∈ smart_find_patterns learnedPats code ↔
          ∀ l ∈ detect_with_patterns code.data (splitLines code) learnedPats
              "learned_from_kb",
            l.line_number ≠ f.line_number)) := by
  set L := detect_with_patterns code.data (splitLines code) learnedPats "learned_from_kb"
    with hL
  set F := detect_with_patterns code.data (splitLines code) fallback_patterns
    "fallback_pattern" with hF
  have hout : smart_find_patterns learnedPats code = L ++ merge_patterns L F := rfl
  constructor
  · intro c hc
    rw [hout]
    exact List.mem_append_left _ hc
  · intro f hf
    rw [hout]
    constructor
    · intro hmem l hl heq
      rcases List.mem_append.mp hmem with hmemL | hmemM
      · have h1 : f.detection_method = "learned_from_kb" :=
          detect_with_patterns_method code.data (splitLines code) learnedPats
            "learned_from_kb" f hmemL
        have h2 : f.detection_method = "fallback_pattern" :=
          detect_with_patterns_method code.data (splitLines code) fallback_patterns
            "fallback_pattern" f hf
        rw [h1] at h2
        exact absurd h2 (by decide)
      · have hp := (List.mem_filter.mp hmemM).2
        simp only [merge_patterns, decide_eq_true_eq] at hp
        exact hp (by
          rw [List.contains_eq_any_beq]
          simp only [List.any_eq_true, beq_iff_eq]
          exact ⟨l.line_number, List.mem_map_of_mem _ hl, heq.symm⟩)
    · intro hnone
      refine List.mem_append_right _ (List.mem_filter.mpr ⟨hf, ?_⟩)
      simp only [merge_patterns, decide_eq_true_eq]
      intro hcon
      rw [List.contains_eq_any_beq] at hcon
      simp only [List.any_eq_true, beq_iff_eq] at hcon
      obtain ⟨x, hx, hxe⟩ := hcon
      obtain ⟨l, hl, rfl⟩ := List.mem_map.mp hx
      exact hnone l hl hxe.symm

/-- Concrete learned pattern set and file text exercising the merge. -/
def c2learned : List SmartRule :=
  [ { name := "learned_span", regex := some (lit "tracer"),
      violation_type := "span_creation", severity := some "high",
      description := "learned span rule", kb_rule := some "kb rule" } ]

def c2code : String := "with tracer.start_span(\"a\"):"

/-- The learned candidate the learned pass produces on `c2code`. -/
def c2learnedCand : SmartCandidate :=
  { pattern_name := "learned_span", line_number := 1, column := 6, matchStart := 5,
    matched_text := "tracer", violation_type := "span_creation", severity := "high",
    description := "learned span rule", kb_rule := "kb rule",
    context_lines := ["with tracer.start_span(\"a\"):"], function_name := "unknown",
    detection_method := "learned_from_kb", confidence := 0.9 }

/-- The fallback candidate the fallback pass produces on `c2code` — same
line number 1, so the merge must suppress it. -/
def c2fallbackCand : SmartCandidate :=
  { pattern_name := "span_creation", line_number := 1, column := 1, matchStart := 0,
    matched_text := "with tracer.start_span(\"a\"", violation_type := "span_creation",
    severity := "medium", description := "Manual span creation detected",
    kb_rule := "Pattern-based detection",
    context_lines := ["with tracer.start_span(\"a\"):"], function_name := "unknown",
    detection_method := "fallback_pattern", confidence := 0.8 }

/-- C2 witness: on `c2code`, the learned candidate is in the merged
output and the fallback candidate on the same line is not. -/
theorem c2_merge_learned_preferred_witness :
    c2learnedCand ∈ smart_find_patterns c2learned c2code ∧
    ¬ c2fallbackCand ∈ smart_find_patterns c2learned c2code := by
  have hL : detect_with_patterns c2code.data (splitLines c2code) c2learned
      "learned_from_kb" = [c2learnedCand] := rfl
  have hF : detect_with_patterns c2code.data (splitLines c2code) fallback_patterns
      "fallback_pattern" = [c2fallbackCand] := rfl
  constructor
  · exact (c2_merge_learned_preferred c2learned c2code).1 c2learnedCand
      (hL ▸ List.mem_singleton_self _)
  · intro hmem
    have h := ((c2_merge_learned_preferred c2learned c2code).2 c2fallbackCand
      (hF ▸ List.mem_singleton_self _)).mp hmem c2learnedCand
      (hL ▸ List.mem_singleton_self _)
    exact h rfl

/-! ## C3 — per-pass (line, offset) dedup invariant -/

/-- The dedup key of a multilang candidate: its line number and its raw
match-start offset (`f"{file_path}:{line_num}:{match.start()}"` with the
fixed `file_path` dropped). -/
def dedupKey (c : MLCandidate) : Nat × Nat := (c.line_number, c.matchStart)

/-- Invariant of the per-rule match loop: the dedup set only grows, every
emitted candidate's key is fresh w.r.t. the incoming set and recorded in
the outgoing set, and the emitted candidates have pairwise distinct keys. -/
theorem emitMatches_invariant (code : List Char) (lines : List String)
    (language : String) (rule : MLRule) (r : RE) :
    ∀ (ms : List PyMatch) (seen : List (Nat × Nat)),
      (∀ k ∈ seen, k ∈ (emitMatches code lines language rule r ms seen).2) ∧
      (∀ c ∈ (emitMatches code lines language rule r ms seen).1,
        dedupKey c ∈ (emitMatches code lines language rule r ms seen).2 ∧
        dedupKey c ∉ seen) ∧
      (emitMatches code lines language rule r ms seen).1.Pairwise
        (fun a b => dedupKey a ≠ dedupKey b) := by
  intro ms
  induction ms with
  | nil =>
    intro seen
    refine ⟨fun k hk => hk, fun c hc => absurd hc (by simp [emitMatches]), ?_⟩
    simp [emitMatches]
  | cons m ms ih =>
    intro seen
    by_cases hk : (lineOfPos code m.s, m.s) ∈ seen
    · have heq : emitMatches code lines language rule r (m :: ms) seen =
          emitMatches code lines language rule r ms seen := by
        simp [emitMatches, hk]
      rw [heq]
      exact ih seen
    · have heq : emitMatches code lines language rule r (m :: ms) seen =
          (mkMLCandidate code lines language rule r m ::
            (emitMatches code lines language rule r ms
              ((lineOfPos code m.s, m.s) :: seen)).1,
           (emitMatches code lines language rule r ms
              ((lineOfPos code m.s, m.s) :: seen)).2) := by
        simp [emitMatches, hk]
      obtain ⟨ih1, ih2, ih3⟩ := ih ((lineOfPos code m.s, m.s) :: seen)
      rw [heq]
      refine ⟨?_, ?_, ?_⟩
      · intro k hk'
        exact ih1 k (List.mem_cons_of_mem _ hk')
      · intro c hc
        rcases List.mem_cons.mp hc with rfl | hc'
        · exact ⟨ih1 _ (List.mem_cons_self _ _), hk⟩
        · exact ⟨(ih2 c hc').1, fun hcs => (ih2 c hc').2 (List.mem_cons_of_mem _ hcs)⟩
      · refine List.pairwise_cons.mpr ⟨?_, ih3⟩
        intro b hb hbe
        exact (ih2 b hb).2 (hbe ▸ List.mem_cons_self _ _)

/-- Invariant of the rule loop threading the per-file dedup set. -/
theorem runRules_invariant (code : List Char) (lines : List String)
    (language : String) :
    ∀ (rules : List MLRule) (seen : List (Nat × Nat)),
      (∀ k ∈ seen, k ∈ (runRules code lines language rules seen).2) ∧
      (∀ c ∈ (runRules code lines language rules seen).1,
        dedupKey c ∈ (runRules code lines language rules seen).2 ∧
        dedupKey c ∉ seen) ∧
      (runRules code lines language rules seen).1.Pairwise
        (fun a b => dedupKey a ≠ dedupKey b) := by
  intro rules
  induction rules with
  | nil =>
    intro seen
    refine ⟨fun k hk => hk, fun c hc => absurd hc (by simp [runRules]), by simp [runRules]⟩
  | cons rule rs ih =>
    intro seen
    match hr : rule.regex with
    | none =>
      have heq : runRules code lines language (rule :: rs) seen =
          runRules code lines language rs seen := by
        simp [runRules, hr]
      rw [heq]
      exact ih seen
    | some r =>
      have heq : runRules code lines language (rule :: rs) seen =
          ((emitMatches code lines language rule r (reFinditer r code) seen).1 ++
            (runRules code lines language rs
              (emitMatches code lines language rule r (reFinditer r code) seen).2).1,
           (runRules code lines language rs
              (emitMatches code lines language rule r (reFinditer r code) seen).2).2) := by
        simp [runRules, hr]
      obtain ⟨e1, e2, e3⟩ :=
        emitMatches_invariant code lines language rule r (reFinditer r code) seen
      obtain ⟨r1, r2, r3⟩ :=
        ih (emitMatches code lines language rule r (reFinditer r code) seen).2
      rw [heq]
      refine ⟨?_, ?_, ?_⟩
      · intro k hk
        exact r1 k (e1 k hk)
      · intro c hc
        rcases List.mem_append.mp hc with hc' | hc'
        · exact ⟨r1 _ (e2 c hc').1, (e2 c hc').2⟩
        · exact ⟨(r2 c hc').1, fun hcs => (r2 c hc').2 (e1 _ hcs)⟩
      · refine List.pairwise_append.mpr ⟨e3, r3, ?_⟩
        intro a ha b hb hab
        exact (r2 b hb).2 (hab ▸ (e2 a ha).1)

/-- C3 (corrected, multilang part): within one file scan of the
multi-language analyzer, no two candidates share both the same line
number and the same raw match-start offset — the per-file
`processed_patterns` set guarantees it across all rules of the scan. -/
theorem c3_multilang_dedup_invariant (code filePath : String) :
    (find_patterns code filePath).Pairwise
      (fun a b => (a.line_number, a.matchStart) ≠ (b.line_number, b.matchStart)) := by
  unfold find_patterns
  by_cases hu : detect_language filePath code = "unknown"
  · simp [hu]
  · rw [if_neg hu]
    match language_patterns (detect_language filePath code) with
    | none => simp
    | some rules =>
      exact (runRules_invariant code.data (splitLines code)
        (detect_language filePath code) rules []).2.2

/-- C3 counterexample: the smart analyzer's `_detect_with_patterns` has
no dedup set, and on this input its single fallback pass emits two
candidates (from `span_creation` and `nested_spans`) that share line
number 1 and match-start offset 0. -/
theorem c3_counterexample :
    (detect_with_patterns
        "with tracer.start_span(\"a\"):\n with tracer.start_span(\"b\"):\n".data
        (splitLines "with tracer.start_span(\"a\"):\n with tracer.start_span(\"b\"):\n")
        fallback_patterns "fallback_pattern").map
      (fun c => (c.pattern_name, c.line_number, c.matchStart)) =
    [("span_creation", 1, 0), ("nested_spans", 1, 0)] := rfl

/-! ## C4 — reported line and column of a match -/

theorem lastNLIdx_concat (xs : List Char) (c : Char) :
    lastNLIdx (xs ++ [c]) = if c = '\n' then (xs.length : Int) else lastNLIdx xs := by
  induction xs with
  | nil => by_cases hc : c = '\n' <;> simp [lastNLIdx, hc]
  | cons a xs ih =>
    have hstep : lastNLIdx ((a :: xs) ++ [c]) =
        if lastNLIdx (xs ++ [c]) ≥ 0 then lastNLIdx (xs ++ [c]) + 1
        else if a = '\n' then 0 else -1 := rfl
    have hstep2 : lastNLIdx (a :: xs) =
        if lastNLIdx xs ≥ 0 then lastNLIdx xs + 1
        else if a = '\n' then 0 else -1 := rfl
    by_cases hc : c = '\n'
    · rw [if_pos hc, hstep, ih, if_pos hc]
      have hge : (xs.length : Int) ≥ 0 := Int.natCast_nonneg xs.length
      rw [if_pos hge]
      simp only [List.length_cons]
      push_cast
      ring
    · rw [if_neg hc, hstep, hstep2, ih, if_neg hc]

/-- The Python `rfind`-style last-newline index, expressed through the
length of the newline-free suffix. -/
theorem lastNLIdx_eq_length_sub (l : List Char) :
    lastNLIdx l =
      (l.length : Int) -
        ((l.reverse.takeWhile (fun c => ¬ (c = '\n'))).length : Int) - 1 := by
  induction l using List.reverseRecOn with
  | nil => simp [lastNLIdx]
  | append_singleton xs c ih =>
    rw [lastNLIdx_concat]
    have hrev : (xs ++ [c]).reverse = c :: xs.reverse := by simp
    by_cases hc : c = '\n'
    · have hfalse : (decide ¬ (c = '\n')) = false := by simp [hc]
      rw [if_pos hc, hrev, List.takeWhile_cons, hfalse]
      simp only [Bool.false_eq_true, if_false, List.length_nil, List.length_append,
        List.length_singleton]
      push_cast
      ring
    · have htrue : (decide ¬ (c = '\n')) = true := by simp [hc]
      rw [if_neg hc, hrev, List.takeWhile_cons, htrue, ih]
      simp only [if_true, List.length_cons, List.length_append, List.length_singleton,
        List.length_nil]
      push_cast
      ring

/-- For any in-range offset, the column both analyzers report is one more
than the 0-based offset of the match start from the start of its line. -/
theorem colOfPos_eq_col0 (code : List Char) (s : Nat) (h : s ≤ code.length) :
    colOfPos code s = (col0 code s : Int) + 1 := by
  unfold colOfPos col0
  rw [lastNLIdx_eq_length_sub]
  have hlen : (code.take s).length = s := by
    simp [List.length_take, Nat.min_eq_left h]
  rw [hlen]
  ring

theorem searchFrom_start_le (r : RE) (full : List Char) :
    ∀ (fl pos : Nat) (m : PyMatch), searchFrom fl r full pos = some m →
      m.s ≤ full.length := by
  intro fl
  induction fl with
  | zero => intro pos m h; simp [searchFrom] at h
  | succ fl ih =>
    intro pos m h
    rw [searchFrom] at h
    by_cases hp : pos > full.length
    · rw [if_pos hp] at h; exact absurd h (by simp)
    · rw [if_neg hp] at h
      cases htry : tryAt r full pos with
      | some v =>
        obtain ⟨e, caps⟩ := v
        rw [htry] at h
        simp only [Option.some.injEq] at h
        rw [← h]
        exact Nat.le_of_not_lt hp
      | none =>
        rw [htry] at h
        exact ih (pos+1) m h

theorem finditerAux_start_le (r : RE) (full : List Char) :
    ∀ (fl pos : Nat) (m : PyMatch), m ∈ finditerAux fl r full pos →
      m.s ≤ full.length := by
  intro fl
  induction fl with
  | zero => intro pos m h; simp [finditerAux] at h
  | succ fl ih =>
    intro pos m h
    rw [finditerAux] at h
    cases hs : searchFrom (full.length + 1 - pos) r full pos with
    | none => rw [hs] at h; simp at h
    | some m0 =>
      rw [hs] at h
      rcases List.mem_cons.mp h with rfl | h'
      · exact searchFrom_start_le r full _ pos m hs
      · exact ih _ m h'

theorem reFinditer_start_le (r : RE) (full : List Char) (m : PyMatch)
    (h : m ∈ reFinditer r full) : m.s ≤ full.length :=
  finditerAux_start_le r full _ 0 m h

/-- Every candidate the per-rule loop emits is assembled from one of the
rule's matches. -/
theorem emitMatches_sources (code : List Char) (lines : List String)
    (language : String) (rule : MLRule) (r : RE) :
    ∀ (ms : List PyMatch) (seen : List (Nat × Nat)),
      ∀ c ∈ (emitMatches code lines language rule r ms seen).1,
        ∃ m ∈ ms, c = mkMLCandidate code lines language rule r m := by
  intro ms
  induction ms with
  | nil => intro seen c hc; simp [emitMatches] at hc
  | cons m ms ih =>
    intro seen c hc
    by_cases hk : (lineOfPos code m.s, m.s) ∈ seen
    · have heq : emitMatches code lines language rule r (m :: ms) seen =
          emitMatches code lines language rule r ms seen := by
        simp [emitMatches, hk]
      rw [heq] at hc
      obtain ⟨m', hm', he⟩ := ih seen c hc
      exact ⟨m', List.mem_cons_of_mem _ hm', he⟩
    · have heq : (emitMatches code lines language rule r (m :: ms) seen).1 =
          mkMLCandidate code lines language rule r m ::
            (emitMatches code lines language rule r ms
              ((lineOfPos code m.s, m.s) :: seen)).1 := by
        simp [emitMatches, hk]
      rw [heq] at hc
      rcases List.mem_cons.mp hc with rfl | hc'
      · exact ⟨m, List.mem_cons_self _ _, rfl⟩
      · obtain ⟨m', hm', he⟩ := ih _ c hc'
        exact ⟨m', List.mem_cons_of_mem _ hm', he⟩

/-- Every candidate of a multilang scan reports the line and column that
`lineOfPos`/`colOfPos` compute at its match-start offset, which is in
range. -/
theorem runRules_locations (code : List Char) (lines : List String)
    (language : String) :
    ∀ (rules : List MLRule) (seen : List (Nat × Nat)),
      ∀ c ∈ (runRules code lines language rules seen).1,
        c.matchStart ≤ code.length ∧
        c.line_number = lineOfPos code c.matchStart ∧
        c.column = colOfPos code c.matchStart := by
  intro rules
  induction rules with
  | nil => intro seen c hc; simp [runRules] at hc
  | cons rule rs ih =>
    intro seen c hc
    match hr : rule.regex with
    | none =>
      have heq : runRules code lines language (rule :: rs) seen =
          runRules code lines language rs seen := by simp [runRules, hr]
      rw [heq] at hc
      exact ih seen c hc
    | some r =>
      have heq : (runRules code lines language (rule :: rs) seen).1 =
          (emitMatches code lines language rule r (reFinditer r code) seen).1 ++
            (runRules code lines language rs
              (emitMatches code lines language rule r (reFinditer r code) seen).2).1 := by
        simp [runRules, hr]
      rw [heq] at hc
      rcases List.mem_append.mp hc with hc' | hc'
      · obtain ⟨m, hm, rfl⟩ := emitMatches_sources code lines language rule r _ seen c hc'
        exact ⟨reFinditer_start_le r code m hm, rfl, rfl⟩
      · exact ih _ c hc'

/-- C4 (corrected): every candidate's reported line number is the count
of newline characters before the match start plus one, and its reported
column is ONE MORE than the 0-based offset of the match start from the
start of that line (`match.start() - code.rfind('\n', 0, match.start())`
counts from the preceding newline character itself). -/
theorem c4_line_and_column (code filePath : String) :
    ∀ c ∈ find_patterns code filePath,
      c.line_number = countNL (code.data.take c.matchStart) + 1 ∧
      c.column = (col0 code.data c.matchStart : Int) + 1 := by
  intro c hc
  unfold find_patterns at hc
  by_cases hu : detect_language filePath code = "unknown"
  · simp [hu] at hc
  · rw [if_neg hu] at hc
    revert hc
    match language_patterns (detect_language filePath code) with
    | none => intro hc; simp at hc
    | some rules =>
      intro hc
      obtain ⟨hle, hline, hcol⟩ := runRules_locations code.data (splitLines code)
        (detect_language filePath code) rules [] c hc
      exact ⟨hline, by rw [hcol, colOfPos_eq_col0 _ _ hle]⟩

/-- C4 counterexample: on `tracer.start_span("a")` the single candidate
starts at offset 0 of line 1, whose 0-based column offset is 0, yet the
reported column is 1. -/
theorem c4_counterexample :
    (find_patterns "tracer.start_span(\"a\")" "t.py").map
      (fun c => (c.line_number, c.column, c.matchStart)) = [(1, 1, 0)] ∧
    col0 "tracer.start_span(\"a\")".data 0 = 0 := ⟨rfl, rfl⟩

/-- The single candidate of a multilang scan of `tracer.start_span("a")`. -/
def c4cand : MLCandidate :=
  { pattern_name := "tracer_start_span", line_number := 1, column := 1, matchStart := 0,
    matched_text := "tracer.start_span(\"a\"", extracted_name := some "a",
    violation_type := "span_naming", severity := "medium",
    description := "Python tracer.start_span() usage",
    context_lines := ["tracer.start_span(\"a\")"], function_name := "global",
    detection_method := "multi_language_pattern", language := "python",
    confidence := 0.85,
    span_context :=
      { type := "unknown", hints := [],
        surrounding_code := "tracer.start_span(\"a\")", is_http_handler := false,
        is_database_op := false, is_messaging := false } }

/-- C4 witness: the corrected line/column law applied to an actual
candidate of an actual scan. -/
theorem c4_line_and_column_witness :
    c4cand.line_number =
      countNL ("tracer.start_span(\"a\")".data.take c4cand.matchStart) + 1 ∧
    c4cand.column = (col0 "tracer.start_span(\"a\")".data c4cand.matchStart : Int) + 1 := by
  have hm : find_patterns "tracer.start_span(\"a\")" "t.py" = [c4cand] := rfl
  exact c4_line_and_column "tracer.start_span(\"a\")" "t.py" c4cand
    (hm ▸ List.mem_singleton_self _)

/-! ## C5 — extension lookup vs. content -/

/-- Python-style `str.endswith`. -/
def endsWithStr (suffix s : String) : Bool := suffix.data.isSuffixOf s.data

/-- C5 counterexample: the path `".py"` ends in the table extension
`".py"`, but `PurePath('.py').suffix` is empty (a leading dot is not an
extension), so the content scan runs and `"package main"` yields
`"go"`, not the table-mapped `"python"`. -/
theorem c5_counterexample :
    endsWithStr ".py" ".py" = true ∧
    extMapLookup ".py" = some "python" ∧
    pathSuffix ".py" = "" ∧
    detect_language ".py" "package main" = "go" := by
  refine ⟨by decide, rfl, by decide, by decide⟩

/-- C5 (corrected): for every file whose path has a proper pathlib
extension (lowercased) in the fixed table, the Language Identifier
returns the table-mapped language for every possible file content; the
content-based signature scan is never consulted. -/
theorem c5_extension_wins (filePath code lang : String)
    (h : extMapLookup (strLower (pathSuffix filePath)) = some lang) :
    detect_language filePath code = lang := by
  simp only [detect_language]
  rw [h]

/-- C5 witness: a `.py` file whose content carries a Go signature is
still identified as Python. -/
theorem c5_extension_wins_witness :
    extMapLookup (strLower (pathSuffix "a.py")) = some "python" ∧
    detect_language "a.py" "package main" = "python" :=
  ⟨rfl, c5_extension_wins "a.py" "package main" "python" rfl⟩

/-! ## C6 — unsupported `.rb` files -/

/-- C6 counterexample: for the `.rb` file content `"package main"` the
content-signature fallback identifies Go, so the analysis reports
language `"go"`, not `"unknown"` (the candidate count is still 0). -/
theorem c6_counterexample :
    strLower (pathSuffix "a.rb") = ".rb" ∧
    (analyze_telemetry_patterns (fun _ => []) (fun _ _ => .raised)
        "package main" "a.rb" none).language = "go" ∧
    (analyze_telemetry_patterns (fun _ => []) (fun _ _ => .raised)
        "package main" "a.rb" none).total_patterns = 0 := by
  refine ⟨by decide, rfl, rfl⟩

/-- C6 (corrected): for every file whose path has the unsupported
extension `.rb` and whose content matches none of the content
signatures of the Language Identifier, the analysis returns
total-candidate count 0, language `"unknown"` and no violations; the
embedding is a total function, so no error is raised on this path. -/
theorem c6_unsupported_rb (filePath code : String)
    (retrieve : String → List KBDoc)
    (oracle : MLCandidate → List KBDoc → LLMOutcome) (query : Option String)
    (hext : strLower (pathSuffix filePath) = ".rb")
    (h1 : ¬ (containsSub "package main" code = true ∨ containsSub "import (" code = true))
    (h2 : ¬ (containsSub "def " code = true ∧ containsSub "import " code = true))
    (h3 : ¬ (containsSub "function " code = true ∨ containsSub "const " code = true))
    (h4 : ¬ (containsSub "class " code = true ∧ containsSub "public " code = true)) :
    (analyze_telemetry_patterns retrieve oracle code filePath query).total_patterns = 0 ∧
    (analyze_telemetry_patterns retrieve oracle code filePath query).language = "unknown" ∧
    (analyze_telemetry_patterns retrieve oracle code filePath query).violations = [] := by
  have hnone : extMapLookup ".rb" = none := rfl
  have hdl : detect_language filePath code = "unknown" := by
    simp only [detect_language]
    rw [hext, hnone]
    simp [h1, h2, h3, h4]
  have hfp : find_patterns code filePath = [] := by
    unfold find_patterns
    rw [hdl]
    simp
  refine ⟨?_, ?_, ?_⟩ <;> simp [analyze_telemetry_patterns, hfp, hdl]

/-- C6 witness: a real Ruby-looking file. -/
theorem c6_unsupported_rb_witness :
    (analyze_telemetry_patterns (fun _ => []) (fun _ _ => .raised)
        "puts 1" "a.rb" none).total_patterns = 0 ∧
    (analyze_telemetry_patterns (fun _ => []) (fun _ _ => .raised)
        "puts 1" "a.rb" none).language = "unknown" ∧
    (analyze_telemetry_patterns (fun _ => []) (fun _ _ => .raised)
        "puts 1" "a.rb" none).violations = [] :=
  c6_unsupported_rb "a.rb" "puts 1" (fun _ => []) (fun _ _ => .raised) none
    (by decide) (by decide) (by decide) (by decide) (by decide)

/-! ## C7 — malformed rules are isolated -/

/-- C7: in both analyzers, a rule whose match expression fails to
compile (`regex := none`, i.e. `re.error` is raised and caught) is
skipped, and the scan result — candidates and dedup set alike — is
exactly what it would be with the malformed rule absent; the scan is
never aborted. -/
theorem c7_malformed_rule_isolated (code : List Char) (lines : List String)
    (language meth : String) (pre post : List MLRule) (bad : MLRule)
    (hbad : bad.regex = none) (seen : List (Nat × Nat))
    (spre spost : List SmartRule) (sbad : SmartRule) (hsbad : sbad.regex = none) :
    runRules code lines language (pre ++ bad :: post) seen =
      runRules code lines language (pre ++ post) seen ∧
    detect_with_patterns code lines (spre ++ sbad :: spost) meth =
      detect_with_patterns code lines (spre ++ spost) meth := by
  have runRules_cons_none : ∀ (rule : MLRule) (rs : List MLRule)
      (sn : List (Nat × Nat)), rule.regex = none →
      runRules code lines language (rule :: rs) sn =
        runRules code lines language rs sn := by
    intro rule rs sn hr
    simp [runRules, hr]
  have runRules_cons_some : ∀ (rule : MLRule) (rs : List MLRule)
      (sn : List (Nat × Nat)) (r : RE), rule.regex = some r →
      runRules code lines language (rule :: rs) sn =
        ((emitMatches code lines language rule r (reFinditer r code) sn).1 ++
          (runRules code lines language rs
            (emitMatches code lines language rule r (reFinditer r code) sn).2).1,
         (runRules code lines language rs
            (emitMatches code lines language rule r (reFinditer r code) sn).2).2) := by
    intro rule rs sn r hr
    simp [runRules, hr]
  have detect_cons : ∀ (rule : SmartRule) (rs : List SmartRule),
      detect_with_patterns code lines (rule :: rs) meth =
        (match rule.regex with
         | none => []
         | some r => (reFinditer r code).map (mkSmartCandidate code lines rule meth))
        ++ detect_with_patterns code lines rs meth := fun _ _ => rfl
  constructor
  · induction pre generalizing seen with
    | nil =>
      rw [List.nil_append, List.nil_append, runRules_cons_none bad post seen hbad]
    | cons rule rs ih =>
      rw [List.cons_append, List.cons_append]
      match hr : rule.regex with
      | none =>
        rw [runRules_cons_none rule _ seen hr, runRules_cons_none rule _ seen hr]
        exact ih seen
      | some r =>
        rw [runRules_cons_some rule _ seen r hr, runRules_cons_some rule _ seen r hr,
          ih]
  · induction spre with
    | nil =>
      rw [List.nil_append, List.nil_append, detect_cons sbad spost, hsbad]
      rfl
    | cons rule rs ih =>
      rw [List.cons_append, List.cons_append, detect_cons rule _, detect_cons rule _, ih]

/-- A rule whose match expression fails to compile. -/
def badMLRule : MLRule :=
  { name := "broken", regex := none, violation_type := "span_naming",
    description := "rule with an invalid match expression", extract_name := some 1 }

def badSmartRule : SmartRule :=
  { name := "broken", regex := none, violation_type := "span_creation",
    severity := none, description := "rule with an invalid match expression",
    kb_rule := none }

/-- C7 witness: dropping a malformed rule inserted into the middle of the
Python rule set (and of the smart fallback set) leaves both scans
unchanged. -/
theorem c7_malformed_rule_isolated_witness :
    badMLRule.regex = none ∧
    runRules "tracer.start_span(\"a\")".data
        (splitLines "tracer.start_span(\"a\")") "python"
        (pythonPatterns ++ badMLRule :: goPatterns) [] =
      runRules "tracer.start_span(\"a\")".data
        (splitLines "tracer.start_span(\"a\")") "python"
        (pythonPatterns ++ goPatterns) [] ∧
    detect_with_patterns "tracer.start_span(\"a\")".data
        (splitLines "tracer.start_span(\"a\")")
        (fallback_patterns ++ badSmartRule :: []) "fallback_pattern" =
      detect_with_patterns "tracer.start_span(\"a\")".data
        (splitLines "tracer.start_span(\"a\")") (fallback_patterns ++ []) "fallback_pattern" :=
  ⟨rfl,
   (c7_malformed_rule_isolated "tracer.start_span(\"a\")".data
      (splitLines "tracer.start_span(\"a\")") "python" "fallback_pattern"
      pythonPatterns goPatterns badMLRule rfl [] fallback_patterns [] badSmartRule rfl).1,
   (c7_malformed_rule_isolated "tracer.start_span(\"a\")".data
      (splitLines "tracer.start_span(\"a\")") "python" "fallback_pattern"
      pythonPatterns goPatterns badMLRule rfl [] fallback_patterns [] badSmartRule rfl).2⟩

/-! ## C8 — Function-Scope Resolver look-back -/

/-- C8: the Python header expression never reaches line index 0.
`range(current_line, max(0, current_line - 20), -1)` stops BEFORE its
stop value, so when the enclosing `def` sits on the file's first line the
resolver returns the sentinel `"global"` instead of the function name;
prepending one line in front of the same function makes it resolve. -/
theorem c8_lookback_misses_first_line :
    get_function_name
      ["def validate_cart_items(items):",
       "    for item in items:",
       "        with tracer.start_span(\"validate_item\"):"] 2 "python" = "global" ∧
    get_function_name
      ["",
       "def validate_cart_items(items):",
       "    for item in items:",
       "        with tracer.start_span(\"validate_item\"):"] 3 "python" =
      "validate_cart_items" := ⟨rfl, rfl⟩

/-! ## C9 — malformed validator responses -/

/-- C9 (corrected): the multilang validator's catch-all `except
Exception` degrades every malformed response to no violation; the smart
validator degrades unparseable responses and objects missing the
`has_violation` field, but a response that decodes to a non-object JSON
value (e.g. the reply `"[]"`) raises an `AttributeError` on `.get` that
its `except (json.JSONDecodeError, KeyError)` does not catch, so the
failure propagates to the caller. -/
theorem c9_malformed_verdict_handling :
    (∀ (p : MLCandidate),
      validate_naming_convention p .raised = none ∧
      validate_naming_convention p .noJsonObject = none ∧
      validate_naming_convention p .badJson = none) ∧
    (∀ (p : MLCandidate) (j : Json), (∀ kvs, j ≠ .obj kvs) →
      validate_naming_convention p (.parsed j) = none) ∧
    (∀ (p : MLCandidate) (kvs : List (String × Json)),
      kvs.find? (fun kv => kv.1 = "has_violation") = none →
      validate_naming_convention p (.parsed (.obj kvs)) = none) ∧
    (∀ (q : SmartCandidate) (e : Unit),
      validate_pattern_with_rag q (.error e) = .ok none) ∧
    (∀ (q : SmartCandidate) (kvs : List (String × Json)),
      kvs.find? (fun kv => kv.1 = "has_violation") = none →
      validate_pattern_with_rag q (.ok (.obj kvs)) = .ok none) ∧
    (∀ (q : SmartCandidate) (xs : List Json),
      validate_pattern_with_rag q (.ok (.arr xs)) = .error .attributeError) := by
  refine ⟨fun p => ⟨rfl, rfl, rfl⟩, ?_, ?_, fun q e => rfl, ?_, fun q xs => rfl⟩
  · intro p j hj
    cases j with
    | obj kvs => exact absurd rfl (hj kvs)
    | null => rfl
    | bool b => rfl
    | num q => rfl
    | str s => rfl
    | arr xs => rfl
  · intro p kvs hmiss
    have hget : getJ kvs "has_violation" (.bool false) = .bool false := by
      unfold getJ
      rw [hmiss]
      rfl
    simp [validate_naming_convention, hget, truthy]
  · intro q kvs hmiss
    have hget : getJ kvs "has_violation" (.bool false) = .bool false := by
      unfold getJ
      rw [hmiss]
      rfl
    simp [validate_pattern_with_rag, hget, truthy]

/-- A concrete multilang candidate for instantiating the C9 rules. -/
def c9mlcand : MLCandidate :=
  { pattern_name := "tracer_start_span", line_number := 1, column := 1, matchStart := 0,
    matched_text := "tracer.start_span(\"a\"", extracted_name := some "a",
    violation_type := "span_naming", severity := "medium",
    description := "Python tracer.start_span() usage", context_lines := [],
    function_name := "global", detection_method := "multi_language_pattern",
    language := "python", confidence := 0.85,
    span_context :=
      { type := "unknown", hints := [], surrounding_code := "",
        is_http_handler := false, is_database_op := false, is_messaging := false } }

/-- A concrete smart candidate (what the fallback pass produces for a
one-line span creation). -/
def c9cand : SmartCandidate :=
  { pattern_name := "span_creation", line_number := 1, column := 1, matchStart := 0,
    matched_text := "with tracer.start_span(\"a\"", violation_type := "span_creation",
    severity := "medium", description := "Manual span creation detected",
    kb_rule := "Pattern-based detection", context_lines := [], function_name := "unknown",
    detection_method := "fallback_pattern", confidence := 0.8 }

/-- C9 counterexample: the validator reply `"[]"` parses as JSON (to an
empty array), is not the expected structured verdict, and makes the
smart validator raise an uncaught `AttributeError` instead of degrading
to "no violation". -/
theorem c9_counterexample :
    validate_pattern_with_rag c9cand (.ok (.arr [])) = .error .attributeError := rfl

/-- C9 witness: every malformed-response rule instantiated concretely. -/
theorem c9_malformed_verdict_handling_witness :
    validate_naming_convention c9mlcand .badJson = none ∧
    validate_naming_convention c9mlcand (.parsed (.arr [])) = none ∧
    validate_naming_convention c9mlcand (.parsed (.obj [("x", .null)])) = none ∧
    validate_pattern_with_rag c9cand (.error ()) = .ok none ∧
    validate_pattern_with_rag c9cand (.ok (.obj [("x", .null)])) = .ok none :=
  ⟨(c9_malformed_verdict_handling.1 c9mlcand).2.2,
   c9_malformed_verdict_handling.2.1 c9mlcand (.arr []) (fun kvs h => by cases h),
   c9_malformed_verdict_handling.2.2.1 c9mlcand [("x", .null)] rfl,
   c9_malformed_verdict_handling.2.2.2.1 c9cand (),
   c9_malformed_verdict_handling.2.2.2.2.1 c9cand [("x", .null)] rfl⟩

/-! ## C10 — confidence and severity invariant of emitted violations -/

/-- Any violation the multilang validator emits has confidence at least
0.8, severity `"high"` exactly when its confidence exceeds 0.9, and
severity `"medium"` exactly otherwise. -/
theorem validate_naming_convention_bounds (p : MLCandidate) (o : LLMOutcome)
    (v : TelemetryViolation) (h : validate_naming_convention p o = some v) :
    v.confidence ≥ 0.8 ∧ (v.severity = "high" ↔ v.confidence > 0.9) ∧
    (v.severity = "medium" ↔ ¬ v.confidence > 0.9) := by
  cases o with
  | raised => exact absurd h (by simp [validate_naming_convention])
  | noJsonObject => exact absurd h (by simp [validate_naming_convention])
  | badJson => exact absurd h (by simp [validate_naming_convention])
  | parsed j =>
    cases j with
    | null => exact absurd h (by simp [validate_naming_convention])
    | bool b => exact absurd h (by simp [validate_naming_convention])
    | num q => exact absurd h (by simp [validate_naming_convention])
    | str s => exact absurd h (by simp [validate_naming_convention])
    | arr xs => exact absurd h (by simp [validate_naming_convention])
    | obj kvs =>
      simp only [validate_naming_convention] at h
      by_cases ht : truthy (getJ kvs "has_violation" (.bool false)) = true
      · rw [if_pos ht] at h
        cases hn : (getJ kvs "confidence" (.num 0)).asNum with
        | none => rw [hn] at h; exact absurd h (by simp)
        | some q =>
          rw [hn] at h
          dsimp only [] at h
          by_cases hq : q ≥ (0.8 : ℚ)
          · rw [if_pos hq] at h
            simp only [Option.some.injEq] at h
            subst h
            refine ⟨hq, ?_, ?_⟩
            · show (if q > (0.9 : ℚ) then "high" else "medium") = "high" ↔ q > 0.9
              by_cases hgt : q > (0.9 : ℚ)
              · rw [if_pos hgt]
                exact ⟨fun _ => hgt, fun _ => rfl⟩
              · rw [if_neg hgt]
                exact ⟨fun hcon => absurd hcon (by decide), fun hcon => absurd hcon hgt⟩
            · show (if q > (0.9 : ℚ) then "high" else "medium") = "medium" ↔ ¬ q > 0.9
              by_cases hgt : q > (0.9 : ℚ)
              · rw [if_pos hgt]
                exact ⟨fun hcon => absurd hcon (by decide), fun hn => absurd hgt hn⟩
              · rw [if_neg hgt]
                exact ⟨fun _ => hgt, fun _ => rfl⟩
          · rw [if_neg hq] at h
            exact absurd h (by simp)
      · rw [if_neg ht] at h
        exact absurd h (by simp)

theorem validateLoop_bounds (retrieve : String → List KBDoc)
    (oracle : MLCandidate → List KBDoc → LLMOutcome) :
    ∀ (ps : List MLCandidate) (v : TelemetryViolation),
      v ∈ (validateLoop retrieve oracle ps).1 →
      v.confidence ≥ 0.8 ∧ (v.severity = "high" ↔ v.confidence > 0.9) ∧
      (v.severity = "medium" ↔ ¬ v.confidence > 0.9) := by
  intro ps
  induction ps with
  | nil => intro v hv; exact absurd hv (by simp [validateLoop])
  | cons p ps ih =>
    intro v hv
    have hstep : (validateLoop retrieve oracle (p :: ps)).1 =
        (match validate_naming_convention p (oracle p (retrieve (kbQuery p))) with
         | some w =>
            if w.confidence > 0.7 then w :: (validateLoop retrieve oracle ps).1
            else (validateLoop retrieve oracle ps).1
         | none => (validateLoop retrieve oracle ps).1) := rfl
    rw [hstep] at hv
    cases hval : validate_naming_convention p (oracle p (retrieve (kbQuery p))) with
    | none => rw [hval] at hv; exact ih v hv
    | some w =>
      rw [hval] at hv
      dsimp only [] at hv
      by_cases hc : w.confidence > (0.7 : ℚ)
      · rw [if_pos hc] at hv
        rcases List.mem_cons.mp hv with rfl | hv'
        · exact validate_naming_convention_bounds p _ v hval
        · exact ih v hv'
      · rw [if_neg hc] at hv
        exact ih v hv

/-- C10: every violation in the result of `analyze_telemetry_patterns`
has confidence ≥ 0.8, and its severity is `"high"` exactly when its
confidence exceeds 0.9 and `"medium"` exactly otherwise — for every
retrieval store, every validator behaviour and every input file. -/
theorem c10_confidence_severity (retrieve : String → List KBDoc)
    (oracle : MLCandidate → List KBDoc → LLMOutcome)
    (code filePath : String) (query : Option String) :
    ∀ v ∈ (analyze_telemetry_patterns retrieve oracle code filePath query).violations,
      v.confidence ≥ 0.8 ∧ (v.severity = "high" ↔ v.confidence > 0.9) ∧
      (v.severity = "medium" ↔ ¬ v.confidence > 0.9) := by
  intro v hv
  unfold analyze_telemetry_patterns at hv
  cases hfp : find_patterns code filePath with
  | nil => rw [hfp] at hv; exact absurd hv (by simp)
  | cons d ds =>
    rw [hfp] at hv
    exact validateLoop_bounds retrieve oracle (d :: ds) v hv

def c10retrieve : String → List KBDoc := fun _ => []

/-- An oracle whose verdict is a well-formed violation at confidence 0.95. -/
def c10oracle : MLCandidate → List KBDoc → LLMOutcome := fun _ _ =>
  .parsed (.obj [("has_violation", .bool true), ("confidence", .num 0.95)])

def c10result : AnalysisResult :=
  analyze_telemetry_patterns c10retrieve c10oracle "tracer.start_span(\"getData\")" "t.py" none

/- `Rat.ofScientific` is `@[irreducible]`, which only blocks unfolding
during elaboration; making it semireducible lets `decide` evaluate the
rational-literal comparisons of the pipeline. -/
attribute [local semireducible] Rat.ofScientific

theorem c10nonempty : c10result.violations ≠ [] :=
  List.length_pos.mp (by decide)

/-- C10 witness: a concrete run that emits a violation; the invariant
holds for it by the theorem. -/
theorem c10_confidence_severity_witness :
    (c10result.violations.head c10nonempty).confidence ≥ 0.8 ∧
    ((c10result.violations.head c10nonempty).severity = "high" ↔
      (c10result.violations.head c10nonempty).confidence > 0.9) ∧
    ((c10result.violations.head c10nonempty).severity = "medium" ↔
      ¬ (c10result.violations.head c10nonempty).confidence > 0.9) :=
  c10_confidence_severity c10retrieve c10oracle "tracer.start_span(\"getData\")" "t.py" none
    (c10result.violations.head c10nonempty) (List.head_mem c10nonempty)
